import Mathlib

/-!
Shallow embedding of the `must` Go package (src/must.go): a runtime
invariant-checking library.  Check functions are embedded as pure functions
returning a `CheckResult` (pass, or a violation carrying the message/details
pair that the Go code would hand to `abort`).  The dispatch-and-abort path is
embedded as `abort`, which records the sequence of handler invocations and the
panic payload.  Go interface values (`any`) are embedded as the inductive
`GoAny`, with one constructor per dynamic shape the claims need, including the
nil-interface and boxed-nil-pointer shapes that `NotNil` inspects through the
eface header.
-/

namespace Must

/-- Result of running one check function up to (but not into) the abort path:
either the condition held and the function returns normally, or it was
violated and the function calls `abort message details`. -/
inductive CheckResult where
  | pass
  | violation (message : String) (details : String)
deriving DecidableEq, Repr

/-- Boolean view of a `CheckResult`: true exactly when the check passes. -/
def isPass : CheckResult → Bool
  | .pass => true
  | .violation _ _ => false

/-- Final outcome of an execution path: a normal return, or a Go panic with a
string payload. -/
inductive Outcome where
  | returned
  | panicked (payload : String)
deriving DecidableEq, Repr

/-- Observable trace of running a check with a registered handler list:
the handler invocations performed (handler identity with the message and
details it received, in invocation order) and the final outcome.  `H` is the
abstract type of handler identities (Go: `OnFailure` callbacks). -/
structure Exec (H : Type) where
  calls : List (H × String × String)
  outcome : Outcome

/-- abort from must.go: iterates the registered failure handlers in order,
invoking each with `(message, details)`, then panics with
`message + ": " + fmt.Sprint(details)` (for a string argument `fmt.Sprint`
is the identity). -/
def abort {H : Type} (failureHandlers : List H) (message details : String) :
    Exec H :=
  { calls := failureHandlers.map (fun f => (f, message, details))
    outcome := .panicked (message ++ ": " ++ details) }

/-- RegisterFailureHandler from must.go: appends `f` to the handler list
(the mutex only guards the append; the resulting state is the append). -/
def RegisterFailureHandler {H : Type} (failureHandlers : List H) (f : H) :
    List H :=
  failureHandlers ++ [f]

/-- Execution of a check function against the registered handlers: a passing
check returns normally having invoked no handler; a violated check enters
`abort` with its message and details. -/
def runCheck {H : Type} (failureHandlers : List H) (r : CheckResult) :
    Exec H :=
  match r with
  | .pass => { calls := [], outcome := .returned }
  | .violation m d => abort failureHandlers m d

/-- Operations of the library that touch the handler registry: registering a
handler, or running a check (whose abort path only reads the registry). -/
inductive LibOp (H : Type) where
  | register (f : H)
  | check (r : CheckResult)

/-- Effect of one library operation on the registry state, together with the
execution trace a check produces.  `RegisterFailureHandler` writes the
registry; `runCheck` (and hence `abort`) only reads it. -/
def applyOp {H : Type} (failureHandlers : List H) :
    LibOp H → List H × Option (Exec H)
  | .register f => (RegisterFailureHandler failureHandlers f, none)
  | .check r => (failureHandlers, some (runCheck failureHandlers r))

/-- Embedding of Go `any` (interface) values, one constructor per dynamic
shape used by the claims.  `nilInterface` is the nil interface (both eface
words nil); `nilPointer t` is a boxed typed nil pointer (type word set to
type `t`, data word nil); the remaining constructors are non-nil boxed
values, whose eface data word is non-nil. -/
inductive GoAny where
  | nilInterface
  | nilPointer (typeName : String)
  | intVal (n : Int)
  | str (s : String)
  | sliceAny (xs : List GoAny)
  | mapAnyAny (entries : List (GoAny × GoAny))
  | sliceInt (xs : List Int)
  | sliceString (xs : List String)
  | mapStringInt (entries : List (String × Int))
  | ptrTo (target : GoAny)

/-- Rendering of `fmt.Sprintf("%T", value)` for the embedded dynamic types. -/
def typeName : GoAny → String
  | .nilInterface => "<nil>"
  | .nilPointer t => t
  | .intVal _ => "int"
  | .str _ => "string"
  | .sliceAny _ => "[]interface {}"
  | .mapAnyAny _ => "map[interface {}]interface {}"
  | .sliceInt _ => "[]int"
  | .sliceString _ => "[]string"
  | .mapStringInt _ => "map[string]int"
  | .ptrTo v => "*" ++ typeName v

/-- Eface data word of a boxed value is nil: true exactly for a boxed typed
nil pointer (every non-pointer value boxed into an interface gets a non-nil
data word; the nil interface is excluded by its nil type word). -/
def efaceDataNil : GoAny → Bool
  | .nilPointer _ => true
  | _ => false

/-- NotNil from must.go: first the `value == nil` interface-level test, then
the unsafe eface test `data == nil && _type != nil` that detects a boxed
typed nil pointer, rendered with `%T`. -/
def NotNil (value : GoAny) (message : String) : CheckResult :=
  match value with
  | .nilInterface => .violation message "expected a non-nil value, got nil"
  | .nilPointer t =>
      .violation message
        ("expected a non-nil value, got nil pointer of type " ++ t)
  | _ => .pass

/-- NotEmpty from must.go: a type switch matching exactly `map[any]any`,
`[]any` and `string`; each supported kind fails when empty; every other
dynamic type falls to the default branch and fails as unsupported. -/
def NotEmpty (value : GoAny) (message : String) : CheckResult :=
  match value with
  | .mapAnyAny entries =>
      if entries.length = 0 then
        .violation message "expected a non-empty map, got empty"
      else .pass
  | .sliceAny xs =>
      if xs.length = 0 then
        .violation message "expected a non-empty slice, got empty"
      else .pass
  | .str s =>
      if s = "" then
        .violation message "expected a non-empty string, got empty"
      else .pass
  | v =>
      .violation message
        ("expected a map, slice or string, got " ++ typeName v)

/-- Empty from must.go: the same type switch as `NotEmpty`; each supported
kind fails when non-empty; every other dynamic type falls to the default
branch and fails as unsupported. -/
def Empty (value : GoAny) (message : String) : CheckResult :=
  match value with
  | .mapAnyAny entries =>
      if entries.length ≠ 0 then
        .violation message "expected an empty map, got non-empty"
      else .pass
  | .sliceAny xs =>
      if xs.length ≠ 0 then
        .violation message "expected an empty slice, got non-empty"
      else .pass
  | .str s =>
      if s ≠ "" then
        .violation message "expected an empty string, got non-empty"
      else .pass
  | v =>
      .violation message
        ("expected a map, slice or string, got " ++ typeName v)

/-- Dynamic types matched by the `NotEmpty`/`Empty` type switch. -/
def supportedKind : GoAny → Bool
  | .mapAnyAny _ => true
  | .sliceAny _ => true
  | .str _ => true
  | _ => false

/-- Emptiness of a value of a supported kind (length zero for maps and
slices, the empty string for strings); false on unsupported kinds, which
never reach a length test in the Go code. -/
def goEmpty : GoAny → Bool
  | .mapAnyAny entries => entries.length = 0
  | .sliceAny xs => xs.length = 0
  | .str s => s = ""
  | _ => false

/-- GreaterThan from must.go (embedded at the `int` instantiation of the
`~int | float64` constraint): fails when `value <= threshold`. -/
def GreaterThan (value threshold : Int) (message : String) : CheckResult :=
  if value ≤ threshold then
    .violation message
      ("expected " ++ toString value ++ " to be greater than "
        ++ toString threshold)
  else .pass

/-- LessThan from must.go: fails when `value >= threshold`. -/
def LessThan (value threshold : Int) (message : String) : CheckResult :=
  if value ≥ threshold then
    .violation message
      ("expected " ++ toString value ++ " to be less than "
        ++ toString threshold)
  else .pass

/-- GreaterThanOrEqual from must.go: fails when `value < threshold`. -/
def GreaterThanOrEqual (value threshold : Int) (message : String) :
    CheckResult :=
  if value < threshold then
    .violation message
      ("expected " ++ toString value ++ " to be greater than or equal to "
        ++ toString threshold)
  else .pass

/-- LessThanOrEqual from must.go: fails when `value > threshold`. -/
def LessThanOrEqual (value threshold : Int) (message : String) :
    CheckResult :=
  if value > threshold then
    .violation message
      ("expected " ++ toString value ++ " to be less than or equal to "
        ++ toString threshold)
  else .pass

/-- slices.Contains from the Go standard library: membership test on a
slice of a comparable element type. -/
def slicesContains {T : Type} [DecidableEq T] (slice : List T) (value : T) :
    Bool :=
  slice.any (fun x => x = value)

/-- Contains from must.go: returns early when `slices.Contains` holds,
otherwise aborts with the "expected slice to contain" details. -/
def Contains {T : Type} [DecidableEq T] [ToString T]
    (slice : List T) (value : T) (message : String) : CheckResult :=
  if slicesContains slice value then .pass
  else
    .violation message
      ("expected slice to contain " ++ toString value ++ ", but it does not")

/-- SliceHas from must.go: aborts when `slices.Contains` fails, with the
"expected slice to have" details. -/
def SliceHas {T : Type} [DecidableEq T] [ToString T]
    (slice : List T) (value : T) (message : String) : CheckResult :=
  if !(slicesContains slice value) then
    .violation message
      ("expected slice to have " ++ toString value ++ ", but it does not")
  else .pass

/-- PointsToSame from must.go: a Go `*T` argument is embedded as
`Option T` (`none` for nil, `some x` for a pointer whose target holds `x`).
A nil argument aborts immediately (the second test is never reached, since
`abort` panics); otherwise the dereferenced values must be equal. -/
def PointsToSame {T : Type} [DecidableEq T] [ToString T]
    (a b : Option T) (message : String) : CheckResult :=
  match a, b with
  | some x, some y =>
      if x ≠ y then
        .violation message
          ("expected pointers to point to the same value, got "
            ++ toString x ++ " and " ++ toString y)
      else .pass
  | _, _ => .violation message "expected non-nil pointers, got nil"

/-- PointsToNotSame from must.go: a nil argument aborts immediately;
otherwise the dereferenced values must be different. -/
def PointsToNotSame {T : Type} [DecidableEq T] [ToString T]
    (a b : Option T) (message : String) : CheckResult :=
  match a, b with
  | some x, some y =>
      if x = y then
        .violation message
          ("expected pointers to point to different values, got "
            ++ toString x ++ " and " ++ toString y)
      else .pass
  | _, _ => .violation message "expected non-nil pointers, got nil"

/-- Outcome of `os.Stat` on a path: success with a directory flag, or one of
the error classes the library can observe. -/
inductive StatOutcome where
  | success (isDir : Bool)
  | errNotExist
  | errPermission
  | errOther (text : String)
deriving DecidableEq, Repr

/-- Rendering of `os.IsNotExist` applied to the error of a stat outcome
(a nil error, from a successful stat, is not a does-not-exist error). -/
def osIsNotExist : StatOutcome → Bool
  | .errNotExist => true
  | _ => false

/-- FileExists from must.go: stats the path and aborts only when
`os.IsNotExist` holds of the resulting error; every other stat outcome —
success, a permission error, or any other error — returns normally.
The filesystem is embedded as a function from paths to stat outcomes. -/
def FileExists (fs : String → StatOutcome) (path message : String) :
    CheckResult :=
  if osIsNotExist (fs path) then
    .violation message
      ("expected file " ++ path ++ " to exist, but it does not")
  else .pass

/-- Helper: a check written as `if violated then abort else return` passes
exactly when the condition is false. -/
theorem isPass_violation_ite (c : Prop) [Decidable c] (m d : String) :
    isPass (if c then CheckResult.violation m d else CheckResult.pass)
      = !(decide c) := by
  split <;> simp_all [isPass]

/-- C1: for every registered handler list and every violation `(message,
details)`, `abort` invokes the handlers in registration order, exactly once
per registration, each with `(message, details)`, and then panics with
payload `message ++ ": " ++ details`; it never returns normally. -/
theorem abort_dispatches_in_order_then_panics {H : Type} [DecidableEq H]
    (failureHandlers : List H) (message details : String) :
    (abort failureHandlers message details).calls
        = failureHandlers.map (fun h => (h, message, details)) ∧
    (∀ h : H, (abort failureHandlers message details).calls.countP
        (fun c => c = (h, message, details))
      = failureHandlers.countP (fun x => x = h)) ∧
    (abort failureHandlers message details).outcome
        = Outcome.panicked (message ++ ": " ++ details) ∧
    (abort failureHandlers message details).outcome ≠ Outcome.returned := by
  refine ⟨rfl, ?_, rfl, by simp [abort]⟩
  intro h
  have hfun : ∀ x : H,
      decide ((x, message, details) = (h, message, details))
        = decide (x = h) := by
    intro x
    simp [Prod.ext_iff]
  simp only [abort, List.countP_map]
  congr 1
  funext x
  exact hfun x

/-- C8: every check has exactly two outcomes: a pass returns normally,
invokes no handler and leaves the registry untouched, and any violated check
reaches the abort path and panics; there is no third, recoverable outcome. -/
theorem check_has_exactly_two_outcomes {H : Type}
    (failureHandlers : List H) (r : CheckResult) :
    (applyOp failureHandlers (LibOp.check r)).1 = failureHandlers ∧
    ((r = CheckResult.pass
        ∧ runCheck failureHandlers r
            = { calls := [], outcome := Outcome.returned })
      ∨ (∃ m d, r = CheckResult.violation m d
          ∧ runCheck failureHandlers r = abort failureHandlers m d
          ∧ (runCheck failureHandlers r).outcome
              = Outcome.panicked (m ++ ": " ++ d))) := by
  refine ⟨rfl, ?_⟩
  cases r with
  | pass => exact Or.inl ⟨rfl, rfl⟩
  | violation m d => exact Or.inr ⟨m, d, rfl, rfl, rfl⟩

/-- C9: registration always succeeds and appends the new handler at the end,
preserving all previously registered handlers in place and in order; and
every library operation (registering, or running any check) keeps the
existing handlers as an unchanged initial segment, so the registry is
append-only. -/
theorem registerFailureHandler_append_only {H : Type}
    (failureHandlers : List H) (f : H) (op : LibOp H) :
    RegisterFailureHandler failureHandlers f = failureHandlers ++ [f] ∧
    (RegisterFailureHandler failureHandlers f).length
        = failureHandlers.length + 1 ∧
    (RegisterFailureHandler failureHandlers f).take failureHandlers.length
        = failureHandlers ∧
    (RegisterFailureHandler failureHandlers f).getLast? = some f ∧
    (applyOp failureHandlers op).1.take failureHandlers.length
        = failureHandlers := by
  refine ⟨rfl, by simp [RegisterFailureHandler], ?_, ?_, ?_⟩
  · simp [RegisterFailureHandler, List.take_left]
  · simp [RegisterFailureHandler]
  · cases op <;>
      simp [applyOp, RegisterFailureHandler, List.take_left]

/-- C2: NotNil fails on the nil interface and on a boxed typed nil pointer,
with details that distinguish the two cases, and passes for concrete
non-pointer values and for a pointer bound to a target. -/
theorem notNil_cases (t m s : String) (n : Int) (v : GoAny) :
    NotNil GoAny.nilInterface m
        = CheckResult.violation m "expected a non-nil value, got nil" ∧
    NotNil (GoAny.nilPointer t) m
        = CheckResult.violation m
            ("expected a non-nil value, got nil pointer of type " ++ t) ∧
    ("expected a non-nil value, got nil pointer of type " ++ t
        ≠ "expected a non-nil value, got nil") ∧
    NotNil (GoAny.intVal n) m = CheckResult.pass ∧
    NotNil (GoAny.str s) m = CheckResult.pass ∧
    NotNil (GoAny.ptrTo v) m = CheckResult.pass := by
  refine ⟨rfl, rfl, ?_, rfl, rfl, rfl⟩
  intro h
  have hlen := congrArg String.length h
  rw [String.length_append] at hlen
  have h1 : ("expected a non-nil value, got nil pointer of type ").length
      = 50 := by decide
  have h2 : ("expected a non-nil value, got nil").length = 33 := by decide
  omega

/-- Helper: NotEmpty passes exactly on a supported kind that is non-empty. -/
theorem isPass_notEmpty_eq (v : GoAny) (m : String) :
    isPass (NotEmpty v m) = (supportedKind v && !(goEmpty v)) := by
  cases v with
  | mapAnyAny entries =>
      by_cases h : entries.length = 0 <;>
        simp [NotEmpty, supportedKind, goEmpty, isPass, h]
  | sliceAny xs =>
      by_cases h : xs.length = 0 <;>
        simp [NotEmpty, supportedKind, goEmpty, isPass, h]
  | str s =>
      by_cases h : s = "" <;>
        simp [NotEmpty, supportedKind, goEmpty, isPass, h]
  | nilInterface => rfl
  | nilPointer t => rfl
  | intVal n => rfl
  | sliceInt xs => rfl
  | sliceString ys => rfl
  | mapStringInt es => rfl
  | ptrTo w => rfl

/-- Helper: Empty passes exactly on a supported kind that is empty. -/
theorem isPass_empty_eq (v : GoAny) (m : String) :
    isPass (Empty v m) = (supportedKind v && goEmpty v) := by
  cases v with
  | mapAnyAny entries =>
      by_cases h : entries.length = 0 <;>
        simp [Empty, supportedKind, goEmpty, isPass, h]
  | sliceAny xs =>
      by_cases h : xs.length = 0 <;>
        simp [Empty, supportedKind, goEmpty, isPass, h]
  | str s =>
      by_cases h : s = "" <;>
        simp [Empty, supportedKind, goEmpty, isPass, h]
  | nilInterface => rfl
  | nilPointer t => rfl
  | intVal n => rfl
  | sliceInt xs => rfl
  | sliceString ys => rfl
  | mapStringInt es => rfl
  | ptrTo w => rfl

/-- C3: over the supported kinds (map, slice, string) NotEmpty passes
exactly when Empty fails, and on every unsupported kind both fail
regardless of the value. -/
theorem notEmpty_empty_complement (v : GoAny) (m : String) :
    (supportedKind v = true →
      isPass (NotEmpty v m) = !(isPass (Empty v m))) ∧
    (supportedKind v = false →
      isPass (NotEmpty v m) = false ∧ isPass (Empty v m) = false) := by
  constructor <;> intro hs <;>
    simp [isPass_notEmpty_eq, isPass_empty_eq, hs]

/-- Witness for C3 at two concrete values: the string "a" is of a supported
kind and there NotEmpty passes exactly when Empty fails; the boxed `[]int`
slice `[1]` is of an unsupported kind and there both checks fail. -/
theorem notEmpty_empty_complement_witness :
    (isPass (NotEmpty (GoAny.str "a") "m")
        = !(isPass (Empty (GoAny.str "a") "m"))) ∧
    (isPass (NotEmpty (GoAny.sliceInt [1]) "m") = false
      ∧ isPass (Empty (GoAny.sliceInt [1]) "m") = false) :=
  ⟨(notEmpty_empty_complement (GoAny.str "a") "m").1 (by decide),
   (notEmpty_empty_complement (GoAny.sliceInt [1]) "m").2 (by decide)⟩

/-- C4: a boxed slice whose dynamic type is not `[]any` (here `[]int` and
`[]string`) and a boxed map whose dynamic type is not `map[any]any` (here
`map[string]int`) are unsupported: both NotEmpty and Empty fail with the
unsupported-type details, whatever the contents. -/
theorem notEmpty_empty_unsupported_box_types (m : String) (xs : List Int)
    (ys : List String) (es : List (String × Int)) :
    NotEmpty (GoAny.sliceInt xs) m
        = CheckResult.violation m
            "expected a map, slice or string, got []int" ∧
    Empty (GoAny.sliceInt xs) m
        = CheckResult.violation m
            "expected a map, slice or string, got []int" ∧
    NotEmpty (GoAny.sliceString ys) m
        = CheckResult.violation m
            "expected a map, slice or string, got []string" ∧
    Empty (GoAny.sliceString ys) m
        = CheckResult.violation m
            "expected a map, slice or string, got []string" ∧
    NotEmpty (GoAny.mapStringInt es) m
        = CheckResult.violation m
            "expected a map, slice or string, got map[string]int" ∧
    Empty (GoAny.mapStringInt es) m
        = CheckResult.violation m
            "expected a map, slice or string, got map[string]int" :=
  ⟨rfl, rfl, rfl, rfl, rfl, rfl⟩

/-- C5: each numeric comparator passes exactly on its named strict or
non-strict comparison, and at the boundary `v = t` the strict comparators
fail while the non-strict ones pass. -/
theorem comparators_pass_iff_boundary (v t : Int) (m : String) :
    (isPass (GreaterThan v t m) = true ↔ v > t) ∧
    (isPass (LessThan v t m) = true ↔ v < t) ∧
    (isPass (GreaterThanOrEqual v t m) = true ↔ v ≥ t) ∧
    (isPass (LessThanOrEqual v t m) = true ↔ v ≤ t) ∧
    isPass (GreaterThan v v m) = false ∧
    isPass (LessThan v v m) = false ∧
    isPass (GreaterThanOrEqual v v m) = true ∧
    isPass (LessThanOrEqual v v m) = true := by
  refine ⟨?_, ?_, ?_, ?_, ?_, ?_, ?_, ?_⟩ <;>
    simp only [GreaterThan, LessThan, GreaterThanOrEqual, LessThanOrEqual,
      isPass_violation_ite, Bool.not_eq_true', Bool.not_eq_false',
      decide_eq_true_eq, decide_eq_true_iff, decide_eq_false_iff_not] <;>
    omega

/-- C6: PointsToSame and PointsToNotSame both fail with the nil-pointer
details whenever either argument is nil, and on two non-nil pointers
PointsToSame fails exactly when the pointees differ while PointsToNotSame
fails exactly when they coincide, showing the dereferenced values. -/
theorem pointsToSame_pointsToNotSame_nil_and_deref {T : Type}
    [DecidableEq T] [ToString T] (a b : Option T) (x y : T) (m : String) :
    PointsToSame (T := T) none b m
        = CheckResult.violation m "expected non-nil pointers, got nil" ∧
    PointsToSame a none m
        = CheckResult.violation m "expected non-nil pointers, got nil" ∧
    PointsToNotSame (T := T) none b m
        = CheckResult.violation m "expected non-nil pointers, got nil" ∧
    PointsToNotSame a none m
        = CheckResult.violation m "expected non-nil pointers, got nil" ∧
    (PointsToSame (some x) (some y) m
        = if x = y then CheckResult.pass
          else CheckResult.violation m
            ("expected pointers to point to the same value, got "
              ++ toString x ++ " and " ++ toString y)) ∧
    (PointsToNotSame (some x) (some y) m
        = if x = y then
            CheckResult.violation m
              ("expected pointers to point to different values, got "
                ++ toString x ++ " and " ++ toString y)
          else CheckResult.pass) := by
  refine ⟨?_, ?_, ?_, ?_, ?_, ?_⟩
  · cases b <;> rfl
  · cases a <;> rfl
  · cases b <;> rfl
  · cases a <;> rfl
  · by_cases h : x = y <;> simp [PointsToSame, h]
  · by_cases h : x = y <;> simp [PointsToNotSame, h]

/-- C7: Contains and SliceHas always have the same pass/fail outcome, and
both pass exactly when the value is an element of the slice. -/
theorem contains_sliceHas_same_outcome {T : Type} [DecidableEq T]
    [ToString T] (slice : List T) (value : T) (m : String) :
    isPass (Contains slice value m) = isPass (SliceHas slice value m) ∧
    (isPass (Contains slice value m) = true ↔ value ∈ slice) ∧
    (isPass (SliceHas slice value m) = true ↔ value ∈ slice) := by
  have hc : slicesContains slice value = true ↔ value ∈ slice := by
    simp [slicesContains, List.any_eq_true]
  by_cases h : slicesContains slice value = true <;>
    simp [Contains, SliceHas, isPass, h, ← hc]

/-- C10: FileExists aborts exactly when the stat of the path reports a
does-not-exist error; on every other stat outcome (success, or an error such
as a permission error) it passes. -/
theorem fileExists_aborts_only_on_not_exist (fs : String → StatOutcome)
    (path m : String) :
    (FileExists fs path m = CheckResult.pass
      ↔ fs path ≠ StatOutcome.errNotExist) ∧
    (FileExists fs path m
        = CheckResult.violation m
            ("expected file " ++ path ++ " to exist, but it does not")
      ↔ fs path = StatOutcome.errNotExist) ∧
    FileExists (fun _ => StatOutcome.errPermission) path m
      = CheckResult.pass := by
  refine ⟨?_, ?_, rfl⟩ <;>
    cases h : fs path <;> simp [FileExists, osIsNotExist, h]

end Must
